import Mathlib

/-!
Shallow embedding of the chat session pipeline of the spoon-rebalancing
dashboard: the client-side ChatSessionController (ChatPane component), the
attachment upload endpoint, the chat relay route, and the history loader.
Network calls are modelled by passing their outcome as an explicit argument;
React state updates become explicit state passing.
-/

/-- Message roles of the chat transcript, from the ChatMessage type in the
ChatPane component and the relay route. -/
inductive Role where
  | user
  | assistant
  | system
deriving DecidableEq, Repr

/-- One entry of the message log:
type ChatMessage = { id: string; role: "user" | "assistant" | "system"; content: string }. -/
structure ChatMessage where
  id : String
  role : Role
  content : String
deriving DecidableEq, Repr

/-- The client-side session state owned by the ChatPane component: the
strategy and wallet scope, the picked files (by original name), the message
log, the input buffer, and the typing (composing) flag. -/
structure SessionState where
  strategyId : Option String
  walletIds : Option (List String)
  files : List String
  messages : List ChatMessage
  input : String
  typing : Bool
deriving DecidableEq, Repr

/-- JavaScript String.prototype.trim over the underlying character list:
whitespace is dropped from both ends. -/
def strTrim (s : String) : String :=
  ⟨((s.data.dropWhile Char.isWhitespace).reverse.dropWhile Char.isWhitespace).reverse⟩

/-- The JSON body the ChatPane posts to the relay at /api/chat:
JSON.stringify (with-braces messages, strategyId, walletIds, message: text). -/
structure RelayRequestBody where
  messages : List ChatMessage
  strategyId : Option String
  walletIds : Option (List String)
  message : String
deriving DecidableEq, Repr

/-- Outcome of the fetch to /api/chat as seen by the ChatPane: either res.ok
with a parsed data.message, or a failure (non-ok status or a thrown
transport error, both of which land in the catch block). -/
inductive FetchOutcome where
  | ok (msg : ChatMessage)
  | failure
deriving DecidableEq, Repr

/-- The synchronous part of sendMessage, up to and including issuing the
fetch: trims the input, rejects empty text, otherwise appends the optimistic
user message, clears the input, sets typing, and builds the request body
from the still-unmodified messages binding. Returns the updated state and
the request body sent (none when no fetch is made). freshId stands for
crypto.randomUUID(). -/
def sendMessageStart (freshId : String) (s : SessionState) :
    SessionState × Option RelayRequestBody :=
  let text := strTrim s.input
  if text = "" then (s, none)
  else
    let userMsg : ChatMessage := ⟨freshId, Role.user, text⟩
    ({ s with messages := s.messages ++ [userMsg], input := "", typing := true },
     some ⟨s.messages, s.strategyId, s.walletIds, text⟩)

/-- The asynchronous tail of sendMessage: on res.ok the returned assistant
message is appended; on failure only a toast is shown; the finally block
always resets typing and clears the picked files. -/
def sendMessageFinish (s : SessionState) (outcome : FetchOutcome) : SessionState :=
  let s1 := match outcome with
    | FetchOutcome.ok m => { s with messages := s.messages ++ [m] }
    | FetchOutcome.failure => s
  { s1 with typing := false, files := [] }

/-- The whole sendMessage handler: the synchronous prefix followed, when a
request was actually issued, by the completion for the given outcome. -/
def sendMessage (freshId : String) (s : SessionState) (outcome : FetchOutcome) :
    SessionState × Option RelayRequestBody :=
  match sendMessageStart freshId s with
  | (s1, none) => (s1, none)
  | (s1, some req) => (sendMessageFinish s1 outcome, some req)

/-- Outcome of the POST to /api/files as seen by onFilesChanged: res.ok with
the parsed urls array, or a non-ok response. -/
inductive UploadOutcome where
  | failure
  | success (urls : List String)
deriving DecidableEq, Repr

/-- The reference line built for one uploaded url: Attachment: u. -/
def refLine (u : String) : String := "Attachment: " ++ u

/-- urls.map(u => Attachment line).join newline, as in onFilesChanged. -/
def joinUrls (urls : List String) : String :=
  String.intercalate "\n" (urls.map refLine)

/-- User-visible toast notices raised by onFilesChanged. -/
inductive UploadToast where
  | uploadFailed
  | filesAttached
deriving DecidableEq, Repr

/-- The onFilesChanged handler: returns immediately on an empty pick,
otherwise records the picked files, posts them, and on success with a
non-empty url list merges the attachment lines into the input buffer,
joining to a non-empty existing buffer with a blank line. The toast raised,
if any, is returned alongside the new state. -/
def onFilesChanged (s : SessionState) (picked : List String)
    (outcome : UploadOutcome) : SessionState × Option UploadToast :=
  if picked = [] then (s, none)
  else
    let s1 := { s with files := picked }
    match outcome with
    | UploadOutcome.failure => (s1, some UploadToast.uploadFailed)
    | UploadOutcome.success urls =>
      if urls = [] then (s1, none)
      else
        ({ s1 with input :=
            if s.input = "" then joinUrls urls
            else s.input ++ "\n\n" ++ joinUrls urls },
         some UploadToast.filesAttached)

/-- One character of file.name.replace with the regex class
outside a-zA-Z0-9 dot dash underscore replaced by an underscore. -/
def sanitizeChar (c : Char) : Char :=
  if c.isAlphanum || c = '.' || c = '-' || c = '_' then c else '_'

/-- The sanitized original file name used by the upload route. -/
def sanitizeName (name : String) : String := String.map sanitizeChar name

/-- The stored name for one file: Date.now() at write time, a dash, and the
sanitized original name. -/
def safeName (nowMs : Nat) (name : String) : String :=
  toString nowMs ++ "-" ++ sanitizeName name

/-- The url pushed for one stored file, rooted at /uploads/. -/
def uploadUrl (nowMs : Nat) (name : String) : String :=
  "/uploads/" ++ safeName nowMs name

/-- The urls collected by the POST /api/files route when every write
succeeds: one per file, in input order; nowAt i is the Date.now() value
observed while writing the i-th file. -/
def uploadPOST (nowAt : Nat → Nat) (names : List String) : List String :=
  names.enum.map fun p => uploadUrl (nowAt p.1) p.2

/-- Everything the relay route can observe of the agent backend response:
the HTTP status, the body read as text on the error path, and the parsed
message_id and agent_response fields on the success path. -/
structure BackendResponse where
  status : Nat
  bodyText : String
  messageId : String
  agentResponse : String
deriving DecidableEq, Repr

/-- res.ok of the fetch API: status in the range 200 to 299. -/
def BackendResponse.isOk (r : BackendResponse) : Bool :=
  200 ≤ r.status && r.status ≤ 299

/-- The JSON body the relay forwards to the agent backend chat endpoint. -/
structure BackendChatRequest where
  message : String
  strategy_id : Option String
  wallet_ids : Option (List String)
deriving DecidableEq, Repr

/-- The scan in the relay route: messages reversed, first entry with role
user, its content, or the empty string when there is none. -/
def lastUserContent (messages : List ChatMessage) : String :=
  match messages.reverse.find? (fun m => m.role == Role.user) with
  | some m => m.content
  | none => ""

/-- The body the relay route forwards to the backend. The route reads only
body.messages, body.strategyId and body.walletIds; the utterance is the
lastUserContent scan of the messages array, and body.message is not
consulted. -/
def relayBackendRequest (body : RelayRequestBody) : BackendChatRequest :=
  ⟨lastUserContent body.messages, body.strategyId, body.walletIds⟩

/-- What the relay route answers to the ChatPane: an error payload with a
status, or an assistant ChatMessage. -/
inductive RelayResponse where
  | err (status : Nat) (payload : String)
  | okMsg (m : ChatMessage)
deriving DecidableEq, Repr

/-- The full relay route POST handler for one backend exchange: builds the
backend request, and on a non-ok status answers with the same status and
the body text, substituting the fixed fallback string when that text is
empty (errorText or-else fallback); on success wraps message_id and
agent_response into an assistant message. The backend is contacted exactly
once, which the single BackendResponse argument makes structural. -/
def relayPOST (body : RelayRequestBody) (backend : BackendResponse) :
    BackendChatRequest × RelayResponse :=
  let req := relayBackendRequest body
  if backend.isOk then
    (req, RelayResponse.okMsg ⟨backend.messageId, Role.assistant, backend.agentResponse⟩)
  else
    (req, RelayResponse.err backend.status
      (if backend.bodyText = "" then "Chat backend error" else backend.bodyText))

/-- The query parameter list built by loadChatHistory: strategy_id is set
only when strategyId is truthy (present and non-empty), then limit is
always set; URLSearchParams serializes in insertion order. The limit
argument defaults to 50 as in the source. -/
def loadChatHistoryQuery (strategyId : Option String) (limit : Nat := 50) :
    List (String × String) :=
  (match strategyId with
   | some sid => if sid = "" then [] else [("strategy_id", sid)]
   | none => []) ++ [("limit", toString limit)]

/-- Length of the url list produced by the upload route. -/
theorem uploadPOST_length (nowAt : Nat → Nat) (names : List String) :
    (uploadPOST nowAt names).length = names.length := by
  simp [uploadPOST]

/-- C1: the claim says the relay sends a supplied message field as the
utterance, so that submitting the first turn with empty history forwards
that text. The route never reads body.message: it derives the utterance
from the last user entry of the messages array, which is empty here, so the
backend receives the empty string instead of the supplied text. -/
theorem relay_drops_supplied_message :
    (relayBackendRequest ⟨[], none, none, "Rebalance my portfolio"⟩).message = "" ∧
    (relayBackendRequest ⟨[], none, none, "Rebalance my portfolio"⟩).message
      ≠ "Rebalance my portfolio" := by
  exact ⟨rfl, by decide⟩

/-- C2: for every submission of non-empty trimmed text, the request body
posted to the relay carries the pre-append log in its messages field, the
trimmed text only in the separate message field, and (with a fresh local
identifier) the just-submitted user turn is not contained in that messages
array. -/
theorem sendMessage_request_excludes_new_turn (freshId : String) (s : SessionState)
    (outcome : FetchOutcome) (htext : strTrim s.input ≠ "")
    (hfresh : ∀ m ∈ s.messages, m.id ≠ freshId) :
    ∃ req, (sendMessage freshId s outcome).2 = some req ∧
      req.messages = s.messages ∧
      req.message = strTrim s.input ∧
      ChatMessage.mk freshId Role.user (strTrim s.input) ∉ req.messages := by
  refine ⟨⟨s.messages, s.strategyId, s.walletIds, strTrim s.input⟩, ?_, rfl, rfl, ?_⟩
  · simp [sendMessage, sendMessageStart, htext]
  · intro hmem
    exact hfresh _ hmem rfl

/-- C2 witness: a concrete submission with input hi over an empty log. -/
theorem sendMessage_request_excludes_new_turn_witness :
    ∃ req,
      (sendMessage "u1" ⟨none, none, [], [], "hi", false⟩ FetchOutcome.failure).2
        = some req ∧
      req.messages = ([] : List ChatMessage) ∧
      req.message = "hi" ∧
      ChatMessage.mk "u1" Role.user "hi" ∉ req.messages := by
  have h := sendMessage_request_excludes_new_turn "u1"
    ⟨none, none, [], [], "hi", false⟩ FetchOutcome.failure (by decide) (by simp)
  simpa using h

/-- C3: for every non-empty trimmed input, the synchronous part of
sendMessage appends exactly one user message with the locally generated
identifier before any network resolution, clears the input buffer, and sets
the typing flag. -/
theorem sendMessage_optimistic_append (freshId : String) (s : SessionState)
    (htext : strTrim s.input ≠ "") :
    (sendMessageStart freshId s).1.messages
        = s.messages ++ [ChatMessage.mk freshId Role.user (strTrim s.input)] ∧
    (sendMessageStart freshId s).1.input = "" ∧
    (sendMessageStart freshId s).1.typing = true := by
  simp [sendMessageStart, htext]

/-- C3 witness: submitting the concrete input hello. -/
theorem sendMessage_optimistic_append_witness :
    (sendMessageStart "u2" ⟨none, none, [], [], "hello", false⟩).1.messages
        = [ChatMessage.mk "u2" Role.user "hello"] ∧
    (sendMessageStart "u2" ⟨none, none, [], [], "hello", false⟩).1.input = "" ∧
    (sendMessageStart "u2" ⟨none, none, [], [], "hello", false⟩).1.typing = true := by
  simpa using sendMessage_optimistic_append "u2" ⟨none, none, [], [], "hello", false⟩
    (by decide)

/-- C4 counterexample: picking one file and having the upload fail leaves
the pending attachment queue holding that file; the claim says the queue is
cleared on failure, but onFilesChanged records the picked batch before the
fetch and its failure path only raises the toast. -/
theorem upload_failure_queue_not_cleared :
    (onFilesChanged ⟨none, none, [], [], "draft", false⟩ ["a.png"]
        UploadOutcome.failure).1.files = ["a.png"] ∧
    (onFilesChanged ⟨none, none, [], [], "draft", false⟩ ["a.png"]
        UploadOutcome.failure).1.files ≠ [] := by
  exact ⟨rfl, by decide⟩

/-- C4 amended: for every non-empty pick whose upload fails, the failure
toast is raised and the input buffer (and the rest of the state) is
unchanged, but the pending attachment queue is not cleared: it holds the
just-picked batch, which is cleared only later by the cleanup of the next
message send. -/
theorem upload_failure_state (s : SessionState) (picked : List String)
    (hp : picked ≠ []) :
    onFilesChanged s picked UploadOutcome.failure
      = ({ s with files := picked }, some UploadToast.uploadFailed) := by
  simp [onFilesChanged, hp]

/-- C4 amended witness: the concrete failing pick of a.png. -/
theorem upload_failure_state_witness :
    onFilesChanged ⟨none, none, [], [], "draft", false⟩ ["b.png"]
        UploadOutcome.failure
      = (⟨none, none, ["b.png"], [], "draft", false⟩,
         some UploadToast.uploadFailed) := by
  exact upload_failure_state ⟨none, none, [], [], "draft", false⟩ ["b.png"] (by decide)

/-- C5: for every failed relay call after a non-empty submission, the log
grows by exactly the optimistic user message, which stays with no assistant
counterpart, and the typing flag returns to false. -/
theorem sendMessage_failure_keeps_user (freshId : String) (s : SessionState)
    (htext : strTrim s.input ≠ "") :
    (sendMessage freshId s FetchOutcome.failure).1.messages
        = s.messages ++ [ChatMessage.mk freshId Role.user (strTrim s.input)] ∧
    (sendMessage freshId s FetchOutcome.failure).1.messages.length
        = s.messages.length + 1 ∧
    (sendMessage freshId s FetchOutcome.failure).1.typing = false := by
  simp [sendMessage, sendMessageStart, sendMessageFinish, htext]

/-- C5 witness: the concrete submission of hey failing. -/
theorem sendMessage_failure_keeps_user_witness :
    (sendMessage "u3" ⟨none, none, [], [], "hey", false⟩ FetchOutcome.failure).1.messages
        = [ChatMessage.mk "u3" Role.user "hey"] ∧
    (sendMessage "u3" ⟨none, none, [], [], "hey", false⟩
        FetchOutcome.failure).1.messages.length = 1 ∧
    (sendMessage "u3" ⟨none, none, [], [], "hey", false⟩
        FetchOutcome.failure).1.typing = false := by
  exact sendMessage_failure_keeps_user "u3" ⟨none, none, [], [], "hey", false⟩ (by decide)

/-- C7 counterexample: a backend failure with status 500 and an empty body
text is answered with the fixed fallback payload, not with the empty body
text verbatim as the claim states. -/
theorem relay_empty_body_not_verbatim :
    (relayPOST ⟨[], none, none, ""⟩ ⟨500, "", "", ""⟩).2
      = RelayResponse.err 500 "Chat backend error" ∧
    (relayPOST ⟨[], none, none, ""⟩ ⟨500, "", "", ""⟩).2
      ≠ RelayResponse.err 500 "" := by
  exact ⟨by decide, by decide⟩

/-- C7 amended: for every non-2xx backend response, the relay answers with
the same status, and the payload is the backend body text verbatim when that
text is non-empty and the fixed fallback text when it is empty; the single
BackendResponse consumed makes the single-attempt (no retry) shape
structural. -/
theorem relay_error_passthrough (body : RelayRequestBody)
    (backend : BackendResponse) (hok : backend.isOk = false) :
    (relayPOST body backend).2
      = RelayResponse.err backend.status
          (if backend.bodyText = "" then "Chat backend error"
           else backend.bodyText) := by
  simp [relayPOST, hok]

/-- C7 amended witness: a concrete 500 with body LLM timeout. -/
theorem relay_error_passthrough_witness :
    (relayPOST ⟨[], none, none, "hi"⟩ ⟨500, "LLM timeout", "", ""⟩).2
      = RelayResponse.err 500 "LLM timeout" := by
  have h := relay_error_passthrough ⟨[], none, none, "hi"⟩
    ⟨500, "LLM timeout", "", ""⟩ (by decide)
  simpa using h

/-- C8: for every input that trims to the empty string, submitting is a
no-op: the state (log, input buffer, typing flag, attachment queue) is
returned unchanged and no request body is produced. -/
theorem empty_submit_noop (freshId : String) (s : SessionState)
    (outcome : FetchOutcome) (h : strTrim s.input = "") :
    sendMessage freshId s outcome = (s, none) := by
  simp [sendMessage, sendMessageStart, h]

/-- C8 witness: submitting three spaces changes nothing. -/
theorem empty_submit_noop_witness :
    sendMessage "u4" ⟨none, none, [], [], "   ", false⟩ FetchOutcome.failure
      = (⟨none, none, [], [], "   ", false⟩, none) := by
  exact empty_submit_noop "u4" ⟨none, none, [], [], "   ", false⟩
    FetchOutcome.failure (by decide)

/-- C6: for every batch of N files that all store successfully, the upload
route returns exactly N urls, the i-th url being the stored-name url of the
i-th file, and feeding those urls back through onFilesChanged extends the
input buffer with the N attachment reference lines, joined to a non-empty
existing buffer by a blank line. -/
theorem upload_batch_success (nowAt : Nat → Nat) (names : List String)
    (s : SessionState) (hn : names ≠ []) :
    (uploadPOST nowAt names).length = names.length ∧
    (∀ i (hi : i < names.length),
        (uploadPOST nowAt names).get ⟨i, by rw [uploadPOST_length]; exact hi⟩
          = uploadUrl (nowAt i) (names.get ⟨i, hi⟩)) ∧
    ((uploadPOST nowAt names).map refLine).length = names.length ∧
    ((onFilesChanged s names
        (UploadOutcome.success (uploadPOST nowAt names))).1.input
      = if s.input = "" then joinUrls (uploadPOST nowAt names)
        else s.input ++ "\n\n" ++ joinUrls (uploadPOST nowAt names)) := by
  have hu : uploadPOST nowAt names ≠ [] := by
    intro h
    apply hn
    have hlen := congrArg List.length h
    rw [uploadPOST_length] at hlen
    exact List.length_eq_zero.mp hlen
  refine ⟨uploadPOST_length nowAt names, ?_, ?_, ?_⟩
  · intro i hi
    simp [uploadPOST, List.get_eq_getElem, List.getElem_map, List.getElem_enum]
  · simp [uploadPOST]
  · simp [onFilesChanged, hn, hu]

/-- C6 witness: two concrete files a.png and b.png stored at successive
millisecond timestamps. -/
theorem upload_batch_success_witness :
    (uploadPOST (fun i => 167 + i) ["a.png", "b.png"]).length = 2 ∧
    (∀ i (hi : i < (["a.png", "b.png"] : List String).length),
        (uploadPOST (fun i => 167 + i) ["a.png", "b.png"]).get
            ⟨i, by rw [uploadPOST_length]; exact hi⟩
          = uploadUrl (167 + i) ((["a.png", "b.png"] : List String).get ⟨i, hi⟩)) ∧
    ((uploadPOST (fun i => 167 + i) ["a.png", "b.png"]).map refLine).length = 2 ∧
    ((onFilesChanged ⟨none, none, [], [], "", false⟩ ["a.png", "b.png"]
        (UploadOutcome.success (uploadPOST (fun i => 167 + i) ["a.png", "b.png"]))).1.input
      = if ("" : String) = "" then
          joinUrls (uploadPOST (fun i => 167 + i) ["a.png", "b.png"])
        else "" ++ "\n\n" ++ joinUrls (uploadPOST (fun i => 167 + i) ["a.png", "b.png"])) := by
  exact upload_batch_success (fun i => 167 + i) ["a.png", "b.png"]
    ⟨none, none, [], [], "", false⟩ (by decide)

/-- C9: when strategyId is absent the serialized query carries no
strategy_id parameter at all, whatever the limit; and when limit is not
supplied the default 50 is serialized, making the query exactly the single
limit parameter. -/
theorem history_query_params :
    (∀ (limit : Nat) (v : String),
        ("strategy_id", v) ∉ loadChatHistoryQuery none limit) ∧
    loadChatHistoryQuery none = [("limit", "50")] := by
  refine ⟨?_, rfl⟩
  intro limit v h
  simp [loadChatHistoryQuery] at h

/-- C10: the message log is append-only: a submission (whatever the relay
outcome) only ever extends the log at its end, keeping every earlier entry
in place, and the attachment handler (whatever the upload outcome) never
touches the log at all. -/
theorem log_append_only :
    (∀ (freshId : String) (s : SessionState) (outcome : FetchOutcome),
        ∃ t, (sendMessage freshId s outcome).1.messages = s.messages ++ t) ∧
    (∀ (s : SessionState) (picked : List String) (outcome : UploadOutcome),
        (onFilesChanged s picked outcome).1.messages = s.messages) := by
  constructor
  · intro freshId s outcome
    by_cases h : strTrim s.input = ""
    · exact ⟨[], by simp [sendMessage, sendMessageStart, h]⟩
    · cases outcome with
      | ok m =>
          exact ⟨[ChatMessage.mk freshId Role.user (strTrim s.input), m], by
            simp [sendMessage, sendMessageStart, sendMessageFinish, h]⟩
      | failure =>
          exact ⟨[ChatMessage.mk freshId Role.user (strTrim s.input)], by
            simp [sendMessage, sendMessageStart, sendMessageFinish, h]⟩
  · intro s picked outcome
    cases outcome with
    | failure => by_cases hp : picked = [] <;> simp [onFilesChanged, hp]
    | success urls =>
        by_cases hp : picked = [] <;> by_cases hu : urls = [] <;>
          simp [onFilesChanged, hp, hu]
